import Mathlib

/-!
# ClaimGuardian — verification of the evaluation aggregation and reporting pipeline

Shallow embedding of the two Python modules of the repository:

* `oumi-training/claimguardian_oumi_enhanced.py` — the fixed evaluation
  dataset `EVALUATION_DATASET`, the mock LLM-judge evaluation
  `run_llm_judge_evaluation` (per-example results, per-criterion averages,
  overall average, console output, fallback from the live path), and the
  report generator `generate_evaluation_report`.
* `oumi-training/evaluation/halloumi_integration.py` — the claim
  verification stub `verify_billing_claim`.

Python numbers are modelled by `ℚ` (every value arising in this program is a
sum of small integers divided by 4 or by a list length, exactly representable);
Python exceptions by `Except`; console prints by a list of events.
-/

namespace ClaimGuardian

/-- The four-criterion score mapping used throughout the script: the
`expected_score` dictionaries of `EVALUATION_DATASET`, the `scores` dictionary
of each mock judgment, and the `avg_scores` dictionary of the aggregation all
have exactly the keys `cpt_accuracy`, `error_detection`, `appeal_quality`,
`compliance`, in that insertion order. -/
structure Scores where
  cpt_accuracy : ℚ
  error_detection : ℚ
  appeal_quality : ℚ
  compliance : ℚ
deriving DecidableEq, Repr

/-- One record of `EVALUATION_DATASET`: keys `request`, `response`,
`reference`, `expected_score`. -/
structure EvaluationExample where
  request : String
  response : String
  reference : String
  expected_score : Scores
deriving DecidableEq, Repr

/-- One element of the `results` list built by the mock branch of
`run_llm_judge_evaluation`: keys `example_id`, `scores`, `overall_score`,
`explanation`. -/
structure JudgmentResult where
  example_id : ℕ
  scores : Scores
  overall_score : ℚ
  explanation : String
deriving DecidableEq, Repr

/-- `sum(example["expected_score"].values())`: the dict holds exactly the four
criterion keys, so this is the sum of the four fields. -/
def Scores.total (s : Scores) : ℚ :=
  s.cpt_accuracy + s.error_detection + s.appeal_quality + s.compliance

/-- The literal `EVALUATION_DATASET` of the source (lines 88–213): four
examples — MRI/70553, colonoscopy/45380, X-ray/71046, ER/99285. -/
def EVALUATION_DATASET : List EvaluationExample :=
  [ { request := "
        Patient: John Smith
        Procedure: MRI Brain with contrast
        CPT Code Billed: 70553
        Amount Billed: $8,500
        Insurance: BlueCross BlueShield
        "
    , response := "
        BILLING ANALYSIS:

        CPT Code: 70553 - MRI brain with/without contrast
        Status: CORRECT code for procedure

        Cost Analysis:
        - Billed Amount: $8,500
        - Medicare Rate: ~$400
        - Fair Market Range: $1,200 - $4,500
        - OVERCHARGE DETECTED: 89% above fair market value

        Recommended Actions:
        1. Request itemized bill
        2. File appeal citing excessive charges
        3. Reference Medicare pricing guidelines

        Appeal Letter Generated: Yes
        Risk Level: HIGH
        "
    , reference := "CPT 70553 is correct. Medicare rate ~$400. Billing $8,500 is excessive overcharge."
    , expected_score :=
        { cpt_accuracy := 10, error_detection := 9, appeal_quality := 8, compliance := 9 } }
  , { request := "
        Patient: Jane Doe
        Procedure: Colonoscopy
        CPT Code Billed: 45380
        Amount Billed: $12,000
        Insurance: Aetna
        "
    , response := "
        BILLING ANALYSIS:

        CPT Code: 45380 - Colonoscopy with biopsy
        Status: May be incorrect - need to verify if biopsy was performed

        Note: If no biopsy was done, correct code should be 45378 (diagnostic only)

        Cost Analysis:
        - Billed Amount: $12,000
        - Medicare Rate: ~$500
        - Fair Market Range: $1,500 - $4,000
        - OVERCHARGE DETECTED: 200% above fair market

        Potential Errors:
        1. Possible upcoding (45380 vs 45378)
        2. Excessive facility fees
        3. Unbundling of services

        Risk Level: CRITICAL
        "
    , reference := "Need to verify if biopsy was performed. 45380 requires biopsy. Overcharge is significant."
    , expected_score :=
        { cpt_accuracy := 7, error_detection := 10, appeal_quality := 9, compliance := 8 } }
  , { request := "
        Patient: Bob Wilson
        Procedure: Chest X-ray
        CPT Code Billed: 71046
        Amount Billed: $350
        Insurance: United Healthcare
        "
    , response := "
        BILLING ANALYSIS:

        CPT Code: 71046 - Chest X-ray, 2 views
        Status: CORRECT

        Cost Analysis:
        - Billed Amount: $350
        - Medicare Rate: ~$25
        - Fair Market Range: $50 - $300
        - Status: SLIGHTLY ELEVATED but within acceptable range

        Recommendation: No action required, pricing is reasonable.

        Risk Level: LOW
        "
    , reference := "CPT 71046 is correct. Pricing at $350 is at high end but acceptable."
    , expected_score :=
        { cpt_accuracy := 10, error_detection := 8, appeal_quality := 6, compliance := 10 } }
  , { request := "
        Patient: Sarah Johnson
        Procedure: Emergency Room Visit
        CPT Code Billed: 99285
        Amount Billed: $15,000
        Insurance: Cigna
        Additional: CT Scan, Blood Work, IV Fluids
        "
    , response := "
        BILLING ANALYSIS:

        CPT Code: 99285 - ED visit, highest severity
        Status: Need to verify severity level matches clinical documentation

        Potential Issues:
        1. 99285 is highest severity - may be upcoding from 99283/99284
        2. Multiple unbundled services detected

        Itemized Review Needed:
        - CT Scan: Check for duplicate billing
        - Blood Work: Verify panel vs individual tests
        - IV Fluids: Should be included in facility fee

        Cost Analysis:
        - Billed: $15,000
        - Expected Range: $3,000 - $8,000
        - OVERCHARGE: 87-400% above expected

        Risk Level: HIGH
        "
    , reference := "ED billing frequently involves upcoding. $15,000 requires detailed itemization."
    , expected_score :=
        { cpt_accuracy := 8, error_detection := 10, appeal_quality := 9, compliance := 9 } }
  ]

/-- The body of the `for i, example in enumerate(EVALUATION_DATASET)` loop of
the mock branch (lines 247–257): `example_id = i + 1`, the `scores` dict copies
the four `expected_score` entries key by key, `overall_score` is
`sum(example["expected_score"].values()) / 4`, and `explanation` is the
formatted string. -/
def mkMockResult (i : ℕ) (ex : EvaluationExample) : JudgmentResult :=
  { example_id := i + 1
  , scores :=
      { cpt_accuracy := ex.expected_score.cpt_accuracy
      , error_detection := ex.expected_score.error_detection
      , appeal_quality := ex.expected_score.appeal_quality
      , compliance := ex.expected_score.compliance }
  , overall_score := ex.expected_score.total / 4
  , explanation := "Analysis for example " ++ toString (i + 1) ++ " evaluated successfully." }

/-- The enumerate loop of the mock branch, with `i` the running index starting
at `start`: appends `mkMockResult i example` for each example in order. -/
def mockResultsFrom (start : ℕ) : List EvaluationExample → List JudgmentResult
  | [] => []
  | ex :: rest => mkMockResult start ex :: mockResultsFrom (start + 1) rest

/-- The full `results` list built by the mock branch
(`for i, example in enumerate(dataset)` starts at `i = 0`). -/
def mockResults (dataset : List EvaluationExample) : List JudgmentResult :=
  mockResultsFrom 0 dataset

/-- Errors the aggregation step can signal. `zeroDivisionError` is Python's
built-in `ZeroDivisionError`, raised by `x / len(results)` when the list is
empty. `emptyDatasetError` and `invalidScoreError` are the names the
specification's error taxonomy assigns to the empty-input and out-of-range
conditions; no class of either name exists anywhere in the source. -/
inductive EvalError where
  | zeroDivisionError
  | emptyDatasetError
  | invalidScoreError
deriving DecidableEq, Repr

/-- The aggregation of the mock branch (lines 267–274): the `avg_scores` dict
divides each per-criterion sum over `results` by `len(results)` (in Python a
zero denominator raises `ZeroDivisionError`), and
`overall_avg = sum(avg_scores.values()) / 4`. Returns the pair
`(avg_scores, overall_avg)`. -/
def aggregateScores (results : List JudgmentResult) :
    Except EvalError (Scores × ℚ) :=
  if results.length = 0 then
    .error .zeroDivisionError
  else
    let n : ℚ := results.length
    let avg_scores : Scores :=
      { cpt_accuracy := (results.map fun r => r.scores.cpt_accuracy).sum / n
      , error_detection := (results.map fun r => r.scores.error_detection).sum / n
      , appeal_quality := (results.map fun r => r.scores.appeal_quality).sum / n
      , compliance := (results.map fun r => r.scores.compliance).sum / n }
    let overall_avg : ℚ := avg_scores.total / 4
    .ok (avg_scores, overall_avg)

/-- The console output of `run_llm_judge_evaluation`, one event per `print`
block of the source: the mock-mode banner, the per-example score block, the
aggregate-results block, the confirmation printed by `save_judge_config`, the
per-output block of the live branch, and the warning printed in the
`ImportError` handler (`Oumi not installed. Running in mock mode.`). -/
inductive ConsoleEvent where
  | mockBanner
  | exampleReport (r : JudgmentResult)
  | aggregateReport (avg_scores : Scores) (overall_avg : ℚ)
  | judgeConfigSaved (path : String)
  | liveOutputReport (i : ℕ)
  | oumiMissingWarning
deriving DecidableEq, Repr

/-- The `use_mock=True` branch of `run_llm_judge_evaluation` (lines 239–285):
prints the banner, builds `results` printing each one, computes `avg_scores`
and `overall_avg` (raising `ZeroDivisionError` on an empty dataset, after the
loop prints and before the aggregate block prints), prints the aggregate
block, and returns `results`. -/
def runMockEvaluation (dataset : List EvaluationExample) :
    List ConsoleEvent × Except EvalError (List JudgmentResult) :=
  let results := mockResults dataset
  let events := ConsoleEvent.mockBanner :: results.map ConsoleEvent.exampleReport
  match aggregateScores results with
  | .error e => (events, .error e)
  | .ok (avg_scores, overall_avg) =>
      (events ++ [ConsoleEvent.aggregateReport avg_scores overall_avg], .ok results)

/-- The value returned by `run_llm_judge_evaluation`: the `results` list in
mock mode, the judge's `outputs` in live mode (`α` is the external judge's
output type). -/
inductive EvalReturn (α : Type) where
  | mock (results : List JudgmentResult)
  | live (outputs : List α)
deriving DecidableEq, Repr

/-- `run_llm_judge_evaluation(use_mock)` (lines 230–315). The live branch's
environment is made explicit: `oumiAvailable` is whether
`from oumi.judges.simple_judge import SimpleJudge` succeeds, and `judge` is the
external `SimpleJudge.judge` call on the prepared `(request, response)` pairs.
When the import fails the source prints the warning and recursively calls
itself with `use_mock=True`; that recursive call is exactly the mock branch,
inlined here. -/
def runLLMJudgeEvaluation {α : Type} (useMock oumiAvailable : Bool)
    (judge : List (String × String) → List α) (dataset : List EvaluationExample) :
    List ConsoleEvent × Except EvalError (EvalReturn α) :=
  if useMock then
    let (events, r) := runMockEvaluation dataset
    (events, r.map EvalReturn.mock)
  else if oumiAvailable then
    let prepared := dataset.map fun ex => (ex.request, ex.response)
    let outputs := judge prepared
    (ConsoleEvent.judgeConfigSaved "medical_billing_judge.yaml" ::
       (List.range outputs.length).map ConsoleEvent.liveOutputReport,
     .ok (.live outputs))
  else
    let (events, r) := runMockEvaluation dataset
    (ConsoleEvent.oumiMissingWarning :: events, r.map EvalReturn.mock)

/-! ## `evaluation/halloumi_integration.py` — the claim-verification stub -/

/-- The `status` field of a detail entry of `verify_billing_claim`. -/
inductive ClaimStatus where
  | SUPPORTED
  | UNSUPPORTED
deriving DecidableEq, Repr

/-- One entry of the `details` list: keys `claim`, `status`, `confidence`. -/
structure ClaimDetail where
  claim : String
  status : ClaimStatus
  confidence : ℚ
deriving DecidableEq, Repr

/-- The dictionary returned by `verify_billing_claim`: keys `claims_verified`,
`claims_supported`, `claims_unsupported`, `confidence_avg`, `details`. -/
structure VerificationResult where
  claims_verified : ℕ
  claims_supported : ℕ
  claims_unsupported : ℕ
  confidence_avg : ℚ
  details : List ClaimDetail
deriving DecidableEq, Repr

/-- The f-string `prompt` built (and then never used) by
`verify_billing_claim` (lines 44–57). -/
def halloumiPrompt (context_document ai_analysis : String) : String :=
  "
    <context>
    " ++ context_document ++ "
    </context>

    <claims>
    " ++ ai_analysis ++ "
    </claims>

    For each claim in the analysis, determine:
    1. Is it SUPPORTED or UNSUPPORTED by the context?
    2. What is the confidence score (0-1)?
    3. What evidence supports or contradicts the claim?
    "

/-- `verify_billing_claim(context_document, ai_analysis, threshold=0.7)`
(lines 26–73): formats the HallOumi prompt, ignores it, and returns the fixed
mock-verification dictionary literal. -/
def verify_billing_claim (context_document ai_analysis : String)
    (threshold : ℚ) : VerificationResult :=
  let _prompt := halloumiPrompt context_document ai_analysis
  { claims_verified := 5
  , claims_supported := 4
  , claims_unsupported := 1
  , confidence_avg := 0.87
  , details :=
      [ { claim := "CPT code 70553 is correct", status := .SUPPORTED, confidence := 0.95 }
      , { claim := "Medicare rate is ~$400", status := .SUPPORTED, confidence := 0.88 }
      , { claim := "Overcharge detected", status := .SUPPORTED, confidence := 0.92 }
      , { claim := "Appeal recommended", status := .SUPPORTED, confidence := 0.85 }
      , { claim := "Risk level HIGH", status := .SUPPORTED, confidence := 0.78 } ] }

/-! ## `generate_evaluation_report` (lines 496–623) -/

/-- A wall-clock reading, as far as
`datetime.now().strftime("%B %d, %Y")` observes it. -/
structure Timestamp where
  year : ℕ
  month : ℕ
  day : ℕ
deriving DecidableEq, Repr

/-- `%B`: the full month name (months are numbered 1–12 by `datetime`). -/
def monthName (m : ℕ) : String :=
  match m with
  | 1 => "January"
  | 2 => "February"
  | 3 => "March"
  | 4 => "April"
  | 5 => "May"
  | 6 => "June"
  | 7 => "July"
  | 8 => "August"
  | 9 => "September"
  | 10 => "October"
  | 11 => "November"
  | 12 => "December"
  | _ => ""

/-- `%d`: the day of the month, zero-padded to two digits. -/
def pad2 (n : ℕ) : String :=
  if n < 10 then "0" ++ toString n else toString n

/-- `datetime.now().strftime("%B %d, %Y")`. -/
def strftimeBdY (t : Timestamp) : String :=
  monthName t.month ++ " " ++ pad2 t.day ++ ", " ++ toString t.year

/-- The report template up to the `{date}` interpolation slot. -/
def reportTemplateBeforeDate : String :=
  "
# ClaimGuardian AI - Oumi Evaluation Report
## AssembleHack25 - Iron Intelligence Award Submission

**Date**: "

/-- The report template after the `{date}` interpolation slot. -/
def reportTemplateAfterDate : String :=
  "
**Model**: arungenailab/claimguardian-medical-billing-v2
**Framework**: Oumi (GRPO Training)

---

## 1. Model Training Summary

### Training Method: GRPO (Group Relative Policy Optimization)
- Same algorithm used by DeepSeek-R1
- Chosen over DPO for better reward optimization
- Trained on 95,138 synthetic medical records

### Training Data: Synthea Medical Records
- Synthetic but realistic patient data
- HIPAA-compliant (no real patient data)
- Covers diverse medical procedures and billing scenarios

### Model Performance
- **Token Accuracy**: 95.8%
- **Base Model**: Qwen2-0.5B-Instruct
- **Training Time**: ~2 hours on A100 GPU

---

## 2. LLM-as-a-Judge Evaluation Results

### Evaluation Criteria
| Criterion | Score | Description |
|-----------|-------|-------------|
| CPT Accuracy | 8.75/10 | Correct CPT code identification |
| Error Detection | 9.25/10 | Billing error identification |
| Appeal Quality | 8.00/10 | Appeal letter professionalism |
| Compliance | 9.00/10 | HIPAA/CMS guideline adherence |

### Overall Model Score: **8.75/10**

### Evaluation Dataset
- 4 diverse medical billing scenarios
- Includes MRI, colonoscopy, X-ray, and ER visits
- Tests overcharge detection, upcoding, and unbundling

---

## 3. HallOumi Claim Verification

### Integration Purpose
Verify that AI-generated billing analysis claims are grounded in source documents.

### Verification Results
- **Claims Verified**: 20
- **Claims Supported**: 18 (90%)
- **Claims Unsupported**: 2 (10%)
- **Average Confidence**: 87%

### Key Findings
- CPT code identifications: 100% verified
- Cost comparisons: 95% verified
- Appeal recommendations: 85% verified

---

## 4. Oumi Features Used

### Required Features ‚úÖ
- [x] Reinforcement Learning fine-tuning (GRPO)
- [x] Custom reward functions
- [x] HuggingFace model upload

### Optional Features (Encouraged) ‚úÖ
- [x] LLM-as-a-Judge evaluation
- [x] Custom evaluation criteria
- [x] Data synthesis documentation

### Bonus Features ‚úÖ
- [x] HallOumi integration for claim verification
- [x] Comprehensive evaluation benchmarks
- [x] Medical domain-specific judges

---

## 5. Code Repository Structure

```
claimguardian-ai/
‚îú‚îÄ‚îÄ training/
‚îÇ   ‚îú‚îÄ‚îÄ grpo_training.py          # GRPO training script
‚îÇ   ‚îú‚îÄ‚îÄ reward_functions.py       # Custom medical billing rewards
‚îÇ   ‚îî‚îÄ‚îÄ synthea_dataset.py        # Data preprocessing
‚îú‚îÄ‚îÄ evaluation/
‚îÇ   ‚îú‚îÄ‚îÄ llm_judge.py              # LLM-as-a-Judge implementation
‚îÇ   ‚îú‚îÄ‚îÄ halloumi_integration.py   # HallOumi claim verification
‚îÇ   ‚îî‚îÄ‚îÄ benchmarks.yaml           # Evaluation configs
‚îú‚îÄ‚îÄ mcp-server/                   # Cline MCP integration
‚îú‚îÄ‚îÄ kestra-workflow/              # Kestra orchestration
‚îî‚îÄ‚îÄ vercel-frontend/              # Vercel deployment
```

---

## 6. Conclusion

ClaimGuardian AI demonstrates comprehensive use of Oumi's capabilities:

1. **GRPO Training**: Successfully trained a medical billing model using Oumi's RL fine-tuning
2. **LLM-as-a-Judge**: Implemented custom judges for domain-specific evaluation
3. **HallOumi**: Integrated claim verification for trustworthy AI outputs
4. **Real-World Impact**: Addresses $100B+ medical billing error problem

**Prize Eligibility**: ‚úÖ Meets all requirements for Iron Intelligence Award ($3,000)

---

*Generated by ClaimGuardian AI Evaluation Pipeline*
*Powered by Oumi - Open Universal Machine Intelligence*
"

/-- `generate_evaluation_report` with the wall-clock reading made an explicit
argument: the rendered document is the fixed template with
`datetime.now().strftime("%B %d, %Y")` interpolated at the single `{date}`
slot. (The source also writes the document to `OUMI_EVALUATION_REPORT.md` and
returns it; the rendered text is the value of interest.) -/
def generate_evaluation_report (now : Timestamp) : String :=
  reportTemplateBeforeDate ++ strftimeBdY now ++ reportTemplateAfterDate

/-- The four criterion scores of a score mapping, as a list (used to state the
range conditions of the specification). -/
def Scores.criteria (s : Scores) : List ℚ :=
  [s.cpt_accuracy, s.error_detection, s.appeal_quality, s.compliance]

/-- The specification's score range: a criterion score lies in `[1, 10]`. -/
def scoreInRange (q : ℚ) : Prop := 1 ≤ q ∧ q ≤ 10

instance (q : ℚ) : Decidable (scoreInRange q) := by
  unfold scoreInRange
  infer_instance

/-- A test input for the range-validation claims: its `cpt_accuracy` score 15
lies outside `[1, 10]`. -/
def outOfRangeExample : EvaluationExample :=
  { request := "req", response := "resp", reference := "ref"
  , expected_score :=
      { cpt_accuracy := 15, error_detection := 9, appeal_quality := 8, compliance := 9 } }

/-! ## Helper lemmas -/

theorem mockResultsFrom_length (dataset : List EvaluationExample) :
    ∀ start, (mockResultsFrom start dataset).length = dataset.length := by
  induction dataset with
  | nil => intro start; rfl
  | cons ex rest ih => intro start; simp [mockResultsFrom, ih]

theorem mockResults_length (dataset : List EvaluationExample) :
    (mockResults dataset).length = dataset.length :=
  mockResultsFrom_length dataset 0

theorem mkMockResult_scores (i : ℕ) (ex : EvaluationExample) :
    (mkMockResult i ex).scores = ex.expected_score := rfl

theorem mockResultsFrom_map_scores (g : Scores → ℚ) (dataset : List EvaluationExample) :
    ∀ start, (mockResultsFrom start dataset).map (fun r => g r.scores) =
      dataset.map fun ex => g ex.expected_score := by
  induction dataset with
  | nil => intro start; rfl
  | cons ex rest ih =>
      intro start
      simp only [mockResultsFrom, List.map_cons, mkMockResult_scores, ih]

theorem mockResultsFrom_get (dataset : List EvaluationExample) :
    ∀ start i (h : i < dataset.length) (h' : i < (mockResultsFrom start dataset).length),
      (mockResultsFrom start dataset).get ⟨i, h'⟩ =
        mkMockResult (start + i) (dataset.get ⟨i, h⟩) := by
  induction dataset with
  | nil => intro _ i h _; exact absurd h (Nat.not_lt_zero i)
  | cons ex rest ih =>
      intro start i h h'
      cases i with
      | zero => rfl
      | succ j =>
          have h2 : j < rest.length := Nat.lt_of_succ_lt_succ h
          have h2' : j < (mockResultsFrom (start + 1) rest).length := by
            simpa [mockResultsFrom] using Nat.lt_of_succ_lt_succ h'
          show (mockResultsFrom (start + 1) rest).get ⟨j, h2'⟩ =
            mkMockResult (start + (j + 1)) (rest.get ⟨j, h2⟩)
          rw [ih (start + 1) j h2 h2']
          have : start + 1 + j = start + (j + 1) := by omega
          rw [this]

theorem aggregateScores_mock_ok (dataset : List EvaluationExample) (h : dataset ≠ []) :
    ∃ p, aggregateScores (mockResults dataset) = Except.ok p := by
  have hne : ¬ (mockResults dataset).length = 0 := by
    rw [mockResults_length, List.length_eq_zero]
    exact h
  exact ⟨_, by rw [aggregateScores, if_neg hne]⟩

theorem aggregateScores_mock_nil :
    aggregateScores (mockResults []) = Except.error EvalError.zeroDivisionError := rfl

theorem mockResults_map_scores (g : Scores → ℚ) (dataset : List EvaluationExample) :
    (mockResults dataset).map (fun r => g r.scores) =
      dataset.map fun ex => g ex.expected_score :=
  mockResultsFrom_map_scores g dataset 0

theorem aggregateScores_mock_eq (dataset : List EvaluationExample) (h : dataset ≠ []) :
    aggregateScores (mockResults dataset) =
      Except.ok
        ({ cpt_accuracy :=
             (dataset.map fun ex => ex.expected_score.cpt_accuracy).sum / dataset.length
         , error_detection :=
             (dataset.map fun ex => ex.expected_score.error_detection).sum / dataset.length
         , appeal_quality :=
             (dataset.map fun ex => ex.expected_score.appeal_quality).sum / dataset.length
         , compliance :=
             (dataset.map fun ex => ex.expected_score.compliance).sum / dataset.length },
         ((dataset.map fun ex => ex.expected_score.cpt_accuracy).sum / dataset.length
           + (dataset.map fun ex => ex.expected_score.error_detection).sum / dataset.length
           + (dataset.map fun ex => ex.expected_score.appeal_quality).sum / dataset.length
           + (dataset.map fun ex => ex.expected_score.compliance).sum / dataset.length) / 4) := by
  have hne : ¬ (mockResults dataset).length = 0 := by
    rw [mockResults_length, List.length_eq_zero]
    exact h
  rw [aggregateScores, if_neg hne]
  simp only [mockResults_map_scores, mockResults_length, Scores.total]

theorem aggregateScores_mock_no_invalid (dataset : List EvaluationExample) :
    aggregateScores (mockResults dataset) ≠ Except.error EvalError.invalidScoreError := by
  rcases eq_or_ne dataset [] with rfl | h
  · rw [aggregateScores_mock_nil]
    intro hc
    exact EvalError.noConfusion (Except.error.inj hc)
  · obtain ⟨p, hp⟩ := aggregateScores_mock_ok dataset h
    rw [hp]
    exact fun hc => Except.noConfusion hc

/-! ## The claims -/

/-- C1: on the fixed four-example dataset (MRI/70553, colonoscopy/45380,
X-ray/71046, ER/99285) with the `expected_score` maps as given in the source,
the aggregation yields per-criterion averages `cpt_accuracy = 8.75`,
`error_detection = 9.25`, `appeal_quality = 8.0`, `compliance = 9.0` and an
overall average of `8.75`. -/
theorem fixed_dataset_aggregate_values :
    aggregateScores (mockResults EVALUATION_DATASET) =
      Except.ok
        ({ cpt_accuracy := 8.75, error_detection := 9.25
         , appeal_quality := 8, compliance := 9 }, 8.75) := by
  rw [aggregateScores_mock_eq EVALUATION_DATASET (by simp [EVALUATION_DATASET])]
  norm_num [EVALUATION_DATASET]

/-- C2: for every non-empty example sequence, the aggregation succeeds, each
per-criterion average equals the arithmetic mean of that criterion's scores
over all examples, and the overall average is computed as the arithmetic mean
of the four per-criterion averages. -/
theorem aggregate_overall_is_mean_of_criterion_means
    (dataset : List EvaluationExample) (h : dataset ≠ []) :
    ∃ avg_scores overall_avg,
      aggregateScores (mockResults dataset) = Except.ok (avg_scores, overall_avg) ∧
      avg_scores.cpt_accuracy =
        (dataset.map fun ex => ex.expected_score.cpt_accuracy).sum / dataset.length ∧
      avg_scores.error_detection =
        (dataset.map fun ex => ex.expected_score.error_detection).sum / dataset.length ∧
      avg_scores.appeal_quality =
        (dataset.map fun ex => ex.expected_score.appeal_quality).sum / dataset.length ∧
      avg_scores.compliance =
        (dataset.map fun ex => ex.expected_score.compliance).sum / dataset.length ∧
      overall_avg =
        (avg_scores.cpt_accuracy + avg_scores.error_detection
          + avg_scores.appeal_quality + avg_scores.compliance) / 4 := by
  exact ⟨_, _, aggregateScores_mock_eq dataset h, rfl, rfl, rfl, rfl, rfl⟩

/-- Witness for C2: the property at the concrete four-example dataset. -/
theorem aggregate_overall_is_mean_of_criterion_means_witness :
    EVALUATION_DATASET ≠ [] ∧
    (∃ avg_scores overall_avg,
      aggregateScores (mockResults EVALUATION_DATASET) = Except.ok (avg_scores, overall_avg) ∧
      avg_scores.cpt_accuracy =
        (EVALUATION_DATASET.map fun ex => ex.expected_score.cpt_accuracy).sum
          / EVALUATION_DATASET.length ∧
      avg_scores.error_detection =
        (EVALUATION_DATASET.map fun ex => ex.expected_score.error_detection).sum
          / EVALUATION_DATASET.length ∧
      avg_scores.appeal_quality =
        (EVALUATION_DATASET.map fun ex => ex.expected_score.appeal_quality).sum
          / EVALUATION_DATASET.length ∧
      avg_scores.compliance =
        (EVALUATION_DATASET.map fun ex => ex.expected_score.compliance).sum
          / EVALUATION_DATASET.length ∧
      overall_avg =
        (avg_scores.cpt_accuracy + avg_scores.error_detection
          + avg_scores.appeal_quality + avg_scores.compliance) / 4) :=
  ⟨by simp [EVALUATION_DATASET],
   aggregate_overall_is_mean_of_criterion_means EVALUATION_DATASET
     (by simp [EVALUATION_DATASET])⟩

/-- C3 (amended): the aggregation fails if and only if the input sequence is
empty, and the failure is Python's built-in `ZeroDivisionError` raised by the
`len(results)` division — not a dedicated `EmptyDatasetError`, which the code
never defines; in particular no NaN is produced and no other error is
possible. -/
theorem aggregate_error_iff_empty (dataset : List EvaluationExample) :
    (aggregateScores (mockResults dataset) = Except.error EvalError.zeroDivisionError ↔
      dataset = []) ∧
    aggregateScores (mockResults dataset) ≠ Except.error EvalError.emptyDatasetError := by
  rcases eq_or_ne dataset [] with rfl | h
  · refine ⟨⟨fun _ => rfl, fun _ => aggregateScores_mock_nil⟩, ?_⟩
    rw [aggregateScores_mock_nil]
    intro hc
    exact EvalError.noConfusion (Except.error.inj hc)
  · obtain ⟨p, hp⟩ := aggregateScores_mock_ok dataset h
    refine ⟨⟨fun he => ?_, fun he => absurd he h⟩, ?_⟩
    · rw [hp] at he
      exact Except.noConfusion he
    · rw [hp]
      exact fun hc => Except.noConfusion hc

/-- Counterexample for C3 as stated: on the empty sequence the aggregation's
error is `ZeroDivisionError`, which is not the `EmptyDatasetError` the claim
requires. -/
theorem aggregate_empty_raises_zero_division :
    aggregateScores (mockResults ([] : List EvaluationExample)) =
      Except.error EvalError.zeroDivisionError ∧
    EvalError.zeroDivisionError ≠ EvalError.emptyDatasetError :=
  ⟨rfl, by decide⟩

/-- C4 (amended): the aggregation performs no score-range validation — on an
input sequence containing an out-of-range score it never raises
`InvalidScoreError`; it proceeds and returns the computed averages. -/
theorem no_invalid_score_validation (dataset : List EvaluationExample)
    (hbad : ∃ ex ∈ dataset, ∃ q ∈ ex.expected_score.criteria, ¬ scoreInRange q) :
    aggregateScores (mockResults dataset) ≠ Except.error EvalError.invalidScoreError ∧
    ∃ p, aggregateScores (mockResults dataset) = Except.ok p := by
  have h : dataset ≠ [] := by
    rintro rfl
    rcases hbad with ⟨ex, hex, -⟩
    simp at hex
  exact ⟨aggregateScores_mock_no_invalid dataset, aggregateScores_mock_ok dataset h⟩

/-- Witness for C4 (amended), at the one-example sequence whose `cpt_accuracy`
score is 15. -/
theorem no_invalid_score_validation_witness :
    aggregateScores (mockResults [outOfRangeExample]) ≠
      Except.error EvalError.invalidScoreError ∧
    ∃ p, aggregateScores (mockResults [outOfRangeExample]) = Except.ok p :=
  no_invalid_score_validation [outOfRangeExample]
    ⟨outOfRangeExample, by simp, 15, by decide, by decide⟩

/-- Counterexample for C4 as stated: on the one-example sequence whose
`cpt_accuracy` is 15 (outside `[1, 10]`) the aggregation does not raise
`InvalidScoreError` — it succeeds and averages the out-of-range score as
given. -/
theorem out_of_range_score_is_accepted :
    ¬ scoreInRange outOfRangeExample.expected_score.cpt_accuracy ∧
    aggregateScores (mockResults [outOfRangeExample]) =
      Except.ok
        ({ cpt_accuracy := 15, error_detection := 9
         , appeal_quality := 8, compliance := 9 }, 41 / 4) ∧
    aggregateScores (mockResults [outOfRangeExample]) ≠
      Except.error EvalError.invalidScoreError := by
  refine ⟨by decide, ?_, aggregateScores_mock_no_invalid [outOfRangeExample]⟩
  rw [aggregateScores_mock_eq [outOfRangeExample] (by simp)]
  norm_num [outOfRangeExample]

/-- C5: for every example sequence and every position `i` (0-indexed here,
1-indexed in the claim), the mock evaluation's `i`-th result carries
`example_id = i + 1`, `scores` equal to that example's `expected_score`
mapping, and `overall_score` equal to the arithmetic mean of the four
criterion scores. -/
theorem mock_judgment_fields (dataset : List EvaluationExample) (i : ℕ)
    (h : i < dataset.length) (h' : i < (mockResults dataset).length) :
    ((mockResults dataset).get ⟨i, h'⟩).example_id = i + 1 ∧
    ((mockResults dataset).get ⟨i, h'⟩).scores = (dataset.get ⟨i, h⟩).expected_score ∧
    ((mockResults dataset).get ⟨i, h'⟩).overall_score =
      ((dataset.get ⟨i, h⟩).expected_score.cpt_accuracy
        + (dataset.get ⟨i, h⟩).expected_score.error_detection
        + (dataset.get ⟨i, h⟩).expected_score.appeal_quality
        + (dataset.get ⟨i, h⟩).expected_score.compliance) / 4 := by
  have e : (mockResults dataset).get ⟨i, h'⟩ = mkMockResult (0 + i) (dataset.get ⟨i, h⟩) :=
    mockResultsFrom_get dataset 0 i h h'
  rw [e, Nat.zero_add]
  exact ⟨rfl, rfl, rfl⟩

/-- Witness for C5: the second example (position 2, 1-indexed) of the fixed
dataset. -/
theorem mock_judgment_fields_witness :
    ((mockResults EVALUATION_DATASET).get ⟨1, by decide⟩).example_id = 1 + 1 ∧
    ((mockResults EVALUATION_DATASET).get ⟨1, by decide⟩).scores =
      (EVALUATION_DATASET.get ⟨1, by decide⟩).expected_score ∧
    ((mockResults EVALUATION_DATASET).get ⟨1, by decide⟩).overall_score =
      ((EVALUATION_DATASET.get ⟨1, by decide⟩).expected_score.cpt_accuracy
        + (EVALUATION_DATASET.get ⟨1, by decide⟩).expected_score.error_detection
        + (EVALUATION_DATASET.get ⟨1, by decide⟩).expected_score.appeal_quality
        + (EVALUATION_DATASET.get ⟨1, by decide⟩).expected_score.compliance) / 4 :=
  mock_judgment_fields EVALUATION_DATASET 1 (by decide) (by decide)

/-- C6: every `VerificationResult` returned by `verify_billing_claim`
satisfies `claims_supported + claims_unsupported = claims_verified =
length(details)`. -/
theorem verification_result_invariant (context_document ai_analysis : String)
    (threshold : ℚ) :
    (verify_billing_claim context_document ai_analysis threshold).claims_supported
        + (verify_billing_claim context_document ai_analysis threshold).claims_unsupported
      = (verify_billing_claim context_document ai_analysis threshold).claims_verified ∧
    (verify_billing_claim context_document ai_analysis threshold).claims_verified
      = (verify_billing_claim context_document ai_analysis threshold).details.length :=
  ⟨rfl, rfl⟩

/-- C7: `verify_billing_claim` returns the same fixed dictionary for all
inputs — the output is independent of every argument, the threshold
included. -/
theorem verify_billing_claim_constant (c₁ a₁ : String) (t₁ : ℚ)
    (c₂ a₂ : String) (t₂ : ℚ) :
    verify_billing_claim c₁ a₁ t₁ = verify_billing_claim c₂ a₂ t₂ := rfl

/-- C10: for every input, all five detail entries of the returned
`VerificationResult` have status `SUPPORTED` while `claims_unsupported` is 1,
so the number of `UNSUPPORTED` details (zero) differs from the
`claims_unsupported` count. -/
theorem details_contradict_unsupported_count (context_document ai_analysis : String)
    (threshold : ℚ) :
    (∀ d ∈ (verify_billing_claim context_document ai_analysis threshold).details,
        d.status = ClaimStatus.SUPPORTED) ∧
    (verify_billing_claim context_document ai_analysis threshold).claims_unsupported = 1 ∧
    ((verify_billing_claim context_document ai_analysis threshold).details.filter
        fun d => d.status == ClaimStatus.UNSUPPORTED).length = 0 ∧
    ((verify_billing_claim context_document ai_analysis threshold).details.filter
        fun d => d.status == ClaimStatus.UNSUPPORTED).length ≠
      (verify_billing_claim context_document ai_analysis threshold).claims_unsupported := by
  refine ⟨?_, rfl, rfl, by exact Nat.zero_ne_one⟩
  intro d hd
  simp only [verify_billing_claim, List.mem_cons, List.not_mem_nil, or_false] at hd
  rcases hd with rfl | rfl | rfl | rfl | rfl <;> rfl

/-- C8: when the live-judge path is requested (`use_mock=False`) and the
external framework is unavailable (the import fails), the evaluation prints
the degradation warning and otherwise behaves exactly as the mock path: same
return value, same remaining console output. -/
theorem live_fallback_to_mock {α : Type} (judge : List (String × String) → List α)
    (dataset : List EvaluationExample) :
    runLLMJudgeEvaluation false false judge dataset =
      (ConsoleEvent.oumiMissingWarning ::
        (runLLMJudgeEvaluation true false judge dataset).1,
       (runLLMJudgeEvaluation true false judge dataset).2) ∧
    ConsoleEvent.oumiMissingWarning ∈ (runLLMJudgeEvaluation false false judge dataset).1 := by
  rcases hm : runMockEvaluation dataset with ⟨events, r⟩
  constructor
  · simp [runLLMJudgeEvaluation, hm]
  · simp [runLLMJudgeEvaluation, hm]

/-- C9: the rendered report is a function of the wall-clock reading alone, and
of it only through the formatted timestamp: two renderings agree byte for byte
exactly when the two clock readings format to the same date string — so with a
fixed injected clock the output is byte-identical, and the timestamp is the
only source of nondeterminism. -/
theorem report_deterministic_modulo_timestamp (t₁ t₂ : Timestamp) :
    generate_evaluation_report t₁ = generate_evaluation_report t₂ ↔
      strftimeBdY t₁ = strftimeBdY t₂ := by
  constructor
  · intro h
    have hd := congrArg String.data h
    simp only [generate_evaluation_report, String.data_append] at hd
    have h1 := List.append_cancel_right hd
    have h2 := List.append_cancel_left h1
    exact String.ext h2
  · intro h
    simp only [generate_evaluation_report, h]

end ClaimGuardian
